import Mathlib

/-
Verification development for the account-editor web application
(Go/Gin backend plus React frontend). The Go handlers and the panel
API client are shallowly embedded as executable Lean definitions;
database access, background scheduling and the external HTTP calls
appear as explicit inputs (lookup results, call outcomes, random
draws). Time instants are abstracted to an integer timeline; the
calendar arithmetic of Go time.Time.AddDate is irrelevant to every
property proved here.
-/

set_option maxHeartbeats 1000000

namespace AccountEditor

/-! ## String utilities (Go strings.Contains) -/

/-- Prefix test on character lists; mirrors the prefix part of Go
strings.Contains via strings.Index. -/
def listHasPrefix : List Char → List Char → Bool
  | _, [] => true
  | [], _ :: _ => false
  | c :: s, p :: ps => c == p && listHasPrefix s ps

/-- Substring test on character lists. -/
def listContainsSub : List Char → List Char → Bool
  | [], pat => pat.isEmpty
  | c :: s, pat => listHasPrefix (c :: s) pat || listContainsSub s pat

/-- Embedding of Go strings.Contains s pat. -/
def strContains (s pat : String) : Bool :=
  listContainsSub s.data pat.data

/-! ## Data model (internal/models) -/

/-- models.User (internal/models, users table). Timestamps live on the
abstract integer timeline. -/
structure User where
  id : Nat
  username : String
  hashedPassword : String
  isActive : Bool
  isAdmin : Bool
  createdAt : Int := 0
  updatedAt : Int := 0
  lastLoginAt : Option Int := none
  deriving Repr, DecidableEq

/-- models.UserSettings (user_settings table). -/
structure UserSettings where
  id : Nat
  userID : Nat
  websiteURL : String
  apiKey : String
  authUser : String
  createdAt : Int := 0
  updatedAt : Int := 0
  deriving Repr, DecidableEq

/-- Line record returned by the external panel API (automation client).
Fields not set by the simulation keep their Go zero values as defaults. -/
structure Line where
  lineID : String
  username : String
  password : String
  macAddr : String := ""
  owner : String := ""
  lineType : String := ""
  expireAt : Int := 0
  isEnabled : Bool := false
  isRestreamer : Bool := false
  isTrial : Bool := false
  packageID : Int := 0
  bouquets : List Int := []
  maxConnections : Int := 0
  resellerNotes : String := ""
  deriving Repr, DecidableEq

/-- Structured form of the JSON result blob written into a task row.
failure stands for the envelope with success false and an error string;
accountData for the success envelope written by create_account and
extend_package; findData for the success envelope written by
find_account. -/
inductive TaskResult where
  | failure (error : String)
  | accountData (lineID username password : String)
      (expireAt : Int) (transactionAmount : Rat) (rid : String)
  | findData (lines : List Line)
  deriving Repr, DecidableEq

/-- models.AutomationTask (automation_tasks table). -/
structure AutomationTask where
  id : Nat
  userID : Nat
  name : String
  targetWebsite : String
  status : String
  result : Option TaskResult
  createdAt : Int
  updatedAt : Int
  completedAt : Option Int
  deriving Repr, DecidableEq

/-! ## Error sanitisation (automation/handler.go lines 708-723) -/

/-- containsHTML from automation/handler.go. -/
def containsHTML (str : String) : Bool :=
  strContains str "<!DOCTYPE" ||
  strContains str "<html" ||
  strContains str "<body" ||
  strContains str "<head" ||
  strContains str "<title"

/-- The fixed user-facing message produced for HTML-looking upstream
errors. -/
def connectionErrorMessage : String :=
  "Connection error: The external service URL appears to be incorrect or not responding properly."

/-- sanitizeErrorMessage from automation/handler.go. -/
def sanitizeErrorMessage (errMsg : String) : String :=
  if containsHTML errMsg then connectionErrorMessage else errMsg

/-- isHTMLResponse from the panel API client: the same five markers
applied to a response body. -/
def isHTMLResponse (body : String) : Bool :=
  strContains body "<!DOCTYPE" ||
  strContains body "<html" ||
  strContains body "<body" ||
  strContains body "<head" ||
  strContains body "<title"

/-! ## Panel API client (automation api client source) -/

/-- APIClient configuration; the Go HTTP client handle itself is not
data and is left out. -/
structure APIClient where
  baseURL : String
  apiKey : String
  authUser : String
  deriving Repr, DecidableEq

/-- IsSimulationMode: test credentials select the simulated client. -/
def APIClient.IsSimulationMode (c : APIClient) : Bool :=
  c.apiKey == "test" && c.authUser == "test"

/-- CreateAccountRequest sent to the panel. -/
structure CreateAccountRequest where
  username : String
  password : String
  package : Int
  resellerNotes : String := ""
  bouquets : List Int := []
  rid : String
  deriving Repr, DecidableEq

/-- CreateAccountResponse returned by the panel. Transaction amounts in
the simulation are exact small integers, so they are modelled in Rat. -/
structure CreateAccountResponse where
  lineID : String
  expireAt : Int
  transactionAmount : Rat
  rid : String
  deriving Repr, DecidableEq

/-- ExtendPackageRequest sent to the panel. -/
structure ExtendPackageRequest where
  package : Int
  rid : String
  deriving Repr, DecidableEq

/-- ExtendPackageResponse returned by the panel. -/
structure ExtendPackageResponse where
  lineID : String
  expireAt : Int
  transactionAmount : Rat
  rid : String
  deriving Repr, DecidableEq

/-- Abstraction of Go time.Time.AddDate 0 months days on the integer
timeline. No claim depends on calendar arithmetic, only on the result
being a function of the base instant and the offsets. -/
def addDate (t : Int) (months days : Int) : Int :=
  t + months * 31 + days

/-- The mock transaction amount switch shared by SimulateCreateAccount
and SimulateExtendPackage. -/
def packageAmount (pkg : Int) : Rat :=
  if pkg = 101 then 100
  else if pkg = 103 then 270
  else if pkg = 106 then 500
  else if pkg = 112 then 950
  else if pkg = 124 then 1800
  else 100

/-- Randomness and uuid sources consumed by the simulation: uuids k is
the k-th uuid.New draw, ints k the k-th raw pseudo-random draw, reduced
modulo the bound at each rand.Intn call site. -/
structure SimRand where
  uuids : Nat → String
  ints : Nat → Nat

/-- fmt.Sprintf with the four-digit zero-padded format, applied to a
value below 10000. -/
def pad4 (n : Nat) : String :=
  let s := toString n
  String.mk (List.replicate (4 - s.length) '0') ++ s

/-- SimulateCreateAccount: mock line id, expiry by package, amount by
the package switch, rid echoed back. The Go function always returns a
nil error. -/
def APIClient.SimulateCreateAccount (_c : APIClient) (req : CreateAccountRequest)
    (r : SimRand) (now : Int) : Except String CreateAccountResponse :=
  let lineID := "sim-" ++ r.uuids 0
  let expireAt := addDate now (Int.tdiv req.package 100) 0
  .ok { lineID := lineID, expireAt := expireAt,
        transactionAmount := packageAmount req.package, rid := req.rid }

/-- Loop body of SimulateFindAccount: builds the remaining lines, with
i the next uuid draw index and k the next rand draw index. Untouched
Line fields keep Go zero values through the structure defaults. -/
def simulateLines (username : String) (r : SimRand) (now : Int) :
    Nat → Nat → Nat → List Line
  | 0, _, _ => []
  | n + 1, i, k =>
    let userDrawn := username == ""
    let simUsername :=
      if userDrawn then "test_user_" ++ pad4 (r.ints k % 10000) else username
    let k1 := if userDrawn then k + 1 else k
    let simPassword := "TestPass" ++ pad4 (r.ints k1 % 10000) ++ "!"
    let simExpireAt := addDate now (Int.ofNat (r.ints (k1 + 1) % 12)) (Int.ofNat (r.ints (k1 + 2) % 30))
    { lineID := "sim-" ++ r.uuids i, username := simUsername,
      password := simPassword, expireAt := simExpireAt } ::
      simulateLines username r now n (i + 1) (k1 + 3)

/-- SimulateFindAccount: one to three mock lines, or exactly one when a
username is given; the count draw happens unconditionally. Always
returns a nil error. -/
def APIClient.SimulateFindAccount (_c : APIClient) (username : String)
    (r : SimRand) (now : Int) : Except String (List Line) :=
  let count := if username != "" then 1 else 1 + r.ints 0 % 3
  .ok (simulateLines username r now count 0 1)

/-- SimulateExtendPackage: echoes the line id and rid, recomputes
expiry and amount from the package. Always returns a nil error. -/
def APIClient.SimulateExtendPackage (_c : APIClient) (lineID : String)
    (req : ExtendPackageRequest) (_r : SimRand) (now : Int) :
    Except String ExtendPackageResponse :=
  let expireAt := addDate now (Int.tdiv req.package 100) 0
  .ok { lineID := lineID, expireAt := expireAt,
        transactionAmount := packageAmount req.package, rid := req.rid }

/-- Outcomes of the real HTTP calls CreateAccount, FindAccount and
ExtendPackage: each is whatever the network and the panel return, so
they enter the model as unconstrained inputs. An error value is the
formatted error string the Go method would return. -/
structure RealOracle where
  createAccount : Except String CreateAccountResponse
  findAccount : Except String (List Line)
  extendPackage : Except String ExtendPackageResponse

/-! ## Task execution (automation/handler.go) -/

/-- TaskRequest bound from the CreateTask request body. -/
structure TaskRequest where
  name : String
  targetWebsite : String
  username : String := ""
  password : String := ""
  package : Int := 0
  deriving Repr, DecidableEq

/-- The create_account branch of the executeTask switch. -/
def runCreateAccount (client : APIClient) (task : AutomationTask) (req : TaskRequest)
    (real : RealOracle) (r : SimRand) (rid : String) (now : Int) : AutomationTask :=
  let apiReq : CreateAccountRequest :=
    { username := req.username, password := req.password,
      package := req.package, rid := rid }
  let callResult :=
    if client.IsSimulationMode then client.SimulateCreateAccount apiReq r now
    else real.createAccount
  match callResult with
  | .error e =>
      { task with status := "failed",
                  result := some (.failure (sanitizeErrorMessage e)),
                  completedAt := some now }
  | .ok response =>
      { task with status := "completed", completedAt := some now,
                  result := some (.accountData response.lineID req.username
                    req.password response.expireAt response.transactionAmount
                    response.rid) }

/-- The find_account branch of the executeTask switch. -/
def runFindAccount (client : APIClient) (task : AutomationTask) (req : TaskRequest)
    (real : RealOracle) (r : SimRand) (now : Int) : AutomationTask :=
  let callResult :=
    if client.IsSimulationMode then client.SimulateFindAccount req.username r now
    else real.findAccount
  match callResult with
  | .error e =>
      { task with status := "failed",
                  result := some (.failure (sanitizeErrorMessage e)),
                  completedAt := some now }
  | .ok lines =>
      { task with status := "completed", completedAt := some now,
                  result := some (.findData lines) }

/-- The extend_package branch of the executeTask switch: find first,
fail on an empty line list, then renew the first line found. -/
def runExtendPackage (client : APIClient) (task : AutomationTask) (req : TaskRequest)
    (real : RealOracle) (r : SimRand) (rid : String) (now : Int) : AutomationTask :=
  let findResult :=
    if client.IsSimulationMode then client.SimulateFindAccount req.username r now
    else real.findAccount
  match findResult with
  | .error e =>
      { task with status := "failed",
                  result := some (.failure (sanitizeErrorMessage e)),
                  completedAt := some now }
  | .ok lines =>
      match lines with
      | [] =>
          { task with status := "failed",
                      result := some (.failure (sanitizeErrorMessage
                        "No accounts found with the provided username")),
                      completedAt := some now }
      | line :: _ =>
          let extendReq : ExtendPackageRequest := { package := req.package, rid := rid }
          let extendResult :=
            if client.IsSimulationMode then
              client.SimulateExtendPackage line.lineID extendReq r now
            else real.extendPackage
          match extendResult with
          | .error e =>
              { task with status := "failed",
                          result := some (.failure (sanitizeErrorMessage e)),
                          completedAt := some now }
          | .ok response =>
              { task with status := "completed", completedAt := some now,
                          result := some (.accountData response.lineID
                            line.username line.password response.expireAt
                            response.transactionAmount response.rid) }

/-- The switch of executeTask on the task name. A name outside the
three handled operations falls through every case and the row is left
exactly as fetched. -/
def execBody (client : APIClient) (task : AutomationTask) (req : TaskRequest)
    (real : RealOracle) (r : SimRand) (rid : String) (now : Int) : AutomationTask :=
  if task.name = "create_account" then
    runCreateAccount client task req real r rid now
  else if task.name = "find_account" then
    runFindAccount client task req real r now
  else if task.name = "extend_package" then
    runExtendPackage client task req real r rid now
  else task

/-- The deferred recover branch of executeTask: on a caught panic the
refetched row is marked failed with a completion time and a failure
envelope. -/
def recoverUpdate (task : AutomationTask) (now : Int) : AutomationTask :=
  { task with status := "failed",
              result := some (.failure "Internal server error: task execution panicked"),
              completedAt := some now }

/-- executeTask as a whole: dbAvailable models the nil check on the
global handle, fetch the db.First lookup of the row, panics whether the
body panicked. A none result means no row was written back. -/
def executeTask (dbAvailable : Bool) (fetch : Option AutomationTask)
    (client : APIClient) (req : TaskRequest) (real : RealOracle) (r : SimRand)
    (rid : String) (now : Int) (panics : Bool) : Option AutomationTask :=
  if panics then
    if dbAvailable then fetch.map (fun t => recoverUpdate t now) else none
  else
    if dbAvailable then
      fetch.map (fun t => execBody client t req real r rid now)
    else none

/-! ## CreateTask handler (automation/handler.go lines 34-97) -/

/-- The two gorm lookup failures the handler distinguishes. -/
inductive DBErr where
  | recordNotFound
  | otherError
  deriving Repr, DecidableEq

/-- Body of a CreateTask response: an error envelope or the created
task row serialised back to the caller. -/
inductive CreateTaskResp where
  | errMsg (msg : String)
  | taskBody (task : AutomationTask)
  deriving Repr, DecidableEq

/-- The user-friendly rewrite of a binding error inside CreateTask. -/
def bindErrorMessage (errText : String) : String :=
  if strContains errText "TargetWebsite" && strContains errText "required" then
    "Panel URL is not configured. Please go to Settings and configure your Panel URL first."
  else "Invalid request format"

/-- The fresh row inserted by CreateTask: status pending, no result,
no completion time; id is the value assigned by the insert. -/
def createTaskRecord (u : User) (req : TaskRequest) (id : Nat) (now : Int) :
    AutomationTask :=
  { id := id, userID := u.id, name := req.name, status := "pending",
    targetWebsite := req.targetWebsite, result := none,
    createdAt := now, updatedAt := now, completedAt := none }

/-- Inputs of one CreateTask request: the context user, the body
binding outcome, the settings lookup outcome, whether the insert
succeeded and which id it assigned, and the current instant. -/
structure CreateTaskInput where
  ctxUser : Option User
  bind : Except String TaskRequest
  settings : Except DBErr UserSettings
  createOK : Bool
  newTaskID : Nat
  now : Int

/-- CreateTask handler: the HTTP status and body it writes. The cast
of the context value to models.User cannot fail in the typed model. -/
def CreateTask (inp : CreateTaskInput) : Nat × CreateTaskResp :=
  match inp.ctxUser with
  | none => (401, .errMsg "User not authenticated")
  | some u =>
    match inp.bind with
    | .error e => (400, .errMsg (bindErrorMessage e))
    | .ok req =>
      match inp.settings with
      | .error .recordNotFound => (404, .errMsg "Settings not found")
      | .error .otherError => (500, .errMsg "Database error")
      | .ok _ =>
        if inp.createOK then
          (201, .taskBody (createTaskRecord u req inp.newTaskID inp.now))
        else (500, .errMsg "Failed to create task")

/-! ## Login handler (auth/handler.go, pkg/utils/auth.go) -/

/-- LoginRequest body. -/
structure LoginRequest where
  username : String
  password : String
  deriving Repr, DecidableEq

/-- AuthenticateUser from pkg/utils/auth.go: first user with the
username, then the bcrypt comparison, then the active check. The
bcrypt comparison is abstracted to the checkHash input, applied as
CheckPasswordHash password hash. -/
def authenticateUser (db : List User) (checkHash : String → String → Bool)
    (username password : String) : Except String User :=
  match db.find? (fun u => u.username == username) with
  | none => .error "record not found"
  | some user =>
    if !checkHash password user.hashedPassword then .error "invalid password"
    else if !user.isActive then .error "user is not active"
    else .ok user

/-- Body of a Login response: an error envelope or the token payload. -/
inductive LoginResp where
  | errMsg (msg : String)
  | token (accessToken tokenType username : String)
  deriving Repr, DecidableEq

/-- Inputs of one Login request: the binding outcome, the user table,
the bcrypt check and the outcome of JWT signing. -/
structure LoginInput where
  bind : Except String LoginRequest
  db : List User
  checkHash : String → String → Bool
  tokenResult : Except Unit String

/-- Login handler from auth/handler.go: the HTTP status and body. The
last-login update does not affect the response and is not tracked. -/
def Login (inp : LoginInput) : Nat × LoginResp :=
  match inp.bind with
  | .error e => (400, .errMsg e)
  | .ok req =>
    match authenticateUser inp.db inp.checkHash req.username req.password with
    | .error _ => (401, .errMsg "Invalid username or password")
    | .ok user =>
      if !user.isActive then
        (401, .errMsg "Account is inactive. Please contact administrator.")
      else
        match inp.tokenResult with
        | .error _ => (500, .errMsg "Failed to create token")
        | .ok tok => (200, .token tok "bearer" user.username)

/-! ## Task read handlers (automation/handler.go lines 436-625) -/

/-- Body of a GetUserTasks response. -/
inductive TasksResp where
  | errMsg (msg : String)
  | tasks (ts : List AutomationTask)
  deriving Repr, DecidableEq

/-- GetUserTasks: all rows whose user_id is the context user. queryOK
models the gorm Find outcome. -/
def GetUserTasks (ctxUser : Option User) (db : List AutomationTask)
    (queryOK : Bool) : Nat × TasksResp :=
  match ctxUser with
  | none => (401, .errMsg "User not authenticated")
  | some u =>
    if queryOK then (200, .tasks (db.filter (fun t => t.userID == u.id)))
    else (500, .errMsg "Failed to retrieve tasks")

/-- Body of a GetTask response. -/
inductive GetTaskResp where
  | errMsg (msg : String)
  | taskBody (t : AutomationTask)
  deriving Repr, DecidableEq

/-- GetTask: the id path parameter (none for the empty string), the
context user, and the row table. The SQL filters on id and user_id
together; a missing row is a 404. The JSON repair of the result column
is the identity on the structured result model. -/
def GetTask (idParam : Option Nat) (ctxUser : Option User)
    (db : List AutomationTask) : Nat × GetTaskResp :=
  match idParam with
  | none => (400, .errMsg "Task ID is required")
  | some id =>
    match ctxUser with
    | none => (401, .errMsg "User not authenticated")
    | some u =>
      match db.find? (fun t => t.id == id && t.userID == u.id) with
      | none => (404, .errMsg "Task not found")
      | some t => (200, .taskBody t)

/-! ## Frontend polling (frontend pages, pollTaskCompletion) -/

/-- The fixed polling interval in milliseconds. -/
def pollIntervalMs : Nat := 2000

/-- The hard timeout in milliseconds after which polling gives up. -/
def pollTimeoutMs : Nat := 300000

/-- A status string on which the poller stops. -/
def isTerminalStatus (s : String) : Bool :=
  s == "completed" || s == "failed"

/-- Outcome of the polling loop: the tick at which a terminal status
was observed together with that status, or the timeout error path. -/
inductive PollOutcome where
  | finished (tick : Nat) (status : String)
  | timedOut
  deriving Repr, DecidableEq

/-- Number of interval callbacks that run before the timeout fires. -/
def pollTicks : Nat := pollTimeoutMs / pollIntervalMs

/-- Discrete semantics of the setInterval callback: at tick number t
the task row is refetched, giving status of the elapsed time, and the
loop stops on a terminal status; when the fuel from the timeout is
exhausted the setTimeout callback reports the timeout error. -/
def pollAux (status : Nat → String) : Nat → Nat → PollOutcome
  | 0, _ => .timedOut
  | fuel + 1, t =>
    if isTerminalStatus (status (pollIntervalMs * t)) then
      .finished t (status (pollIntervalMs * t))
    else pollAux status fuel (t + 1)

/-- pollTaskCompletion: interval callbacks at ticks 1, 2, ... within
the five-minute window, then the timeout. -/
def pollTaskCompletion (status : Nat → String) : PollOutcome :=
  pollAux status pollTicks 1

/-! ## Helper lemmas -/

/-- Every exit of the create_account branch writes a terminal status. -/
theorem runCreateAccount_status (client : APIClient) (task : AutomationTask)
    (req : TaskRequest) (real : RealOracle) (r : SimRand) (rid : String) (now : Int) :
    (runCreateAccount client task req real r rid now).status = "completed" ∨
    (runCreateAccount client task req real r rid now).status = "failed" := by
  unfold runCreateAccount
  dsimp only
  split
  · exact Or.inr rfl
  · exact Or.inl rfl

/-- Every exit of the find_account branch writes a terminal status. -/
theorem runFindAccount_status (client : APIClient) (task : AutomationTask)
    (req : TaskRequest) (real : RealOracle) (r : SimRand) (now : Int) :
    (runFindAccount client task req real r now).status = "completed" ∨
    (runFindAccount client task req real r now).status = "failed" := by
  unfold runFindAccount
  dsimp only
  split
  · exact Or.inr rfl
  · exact Or.inl rfl

/-- Every exit of the extend_package branch writes a terminal status. -/
theorem runExtendPackage_status (client : APIClient) (task : AutomationTask)
    (req : TaskRequest) (real : RealOracle) (r : SimRand) (rid : String) (now : Int) :
    (runExtendPackage client task req real r rid now).status = "completed" ∨
    (runExtendPackage client task req real r rid now).status = "failed" := by
  unfold runExtendPackage
  dsimp only
  split
  · exact Or.inr rfl
  · split
    · exact Or.inr rfl
    · split
      · exact Or.inr rfl
      · exact Or.inl rfl

/-- The switch leaves the status unchanged or writes a terminal one. -/
theorem execBody_status (client : APIClient) (task : AutomationTask)
    (req : TaskRequest) (real : RealOracle) (r : SimRand) (rid : String) (now : Int) :
    (execBody client task req real r rid now).status = task.status ∨
    (execBody client task req real r rid now).status = "completed" ∨
    (execBody client task req real r rid now).status = "failed" := by
  unfold execBody
  split
  · exact Or.inr (runCreateAccount_status client task req real r rid now)
  · split
    · exact Or.inr (runFindAccount_status client task req real r now)
    · split
      · exact Or.inr (runExtendPackage_status client task req real r rid now)
      · exact Or.inl rfl

/-- A known task name forces a terminal status out of the switch. -/
theorem execBody_terminal_of_known (client : APIClient) (task : AutomationTask)
    (req : TaskRequest) (real : RealOracle) (r : SimRand) (rid : String) (now : Int)
    (hn : task.name = "create_account" ∨ task.name = "find_account" ∨
      task.name = "extend_package") :
    (execBody client task req real r rid now).status = "completed" ∨
    (execBody client task req real r rid now).status = "failed" := by
  unfold execBody
  rcases hn with h | h | h
  · rw [if_pos h]
    exact runCreateAccount_status client task req real r rid now
  · rw [if_neg (by simp [h]), if_pos h]
    exact runFindAccount_status client task req real r now
  · rw [if_neg (by simp [h]), if_neg (by simp [h]), if_pos h]
    exact runExtendPackage_status client task req real r rid now

/-- AuthenticateUser only returns a user that passed the active check. -/
theorem authenticateUser_ok_active (db : List User) (checkHash : String → String → Bool)
    (username password : String) (u : User)
    (h : authenticateUser db checkHash username password = .ok u) :
    u.isActive = true := by
  unfold authenticateUser at h
  split at h
  · simp at h
  · split at h
    · simp at h
    · split at h
      · simp at h
      · next user _ hact =>
        simp only [Except.ok.injEq] at h
        subst h
        simpa using hact

/-- Searching with a predicate that entails the filter predicate is
unchanged by the filter. -/
theorem find?_filter_eq {α : Type} (p q : α → Bool) (h : ∀ a, p a = true → q a = true) :
    ∀ l : List α, (l.filter q).find? p = l.find? p := by
  intro l
  induction l with
  | nil => rfl
  | cons a l ih =>
    by_cases hq : q a = true
    · rw [List.filter_cons_of_pos hq]
      by_cases hp : p a = true
      · rw [List.find?_cons_of_pos _ hp, List.find?_cons_of_pos _ hp]
      · rw [List.find?_cons_of_neg _ (by simpa using hp),
          List.find?_cons_of_neg _ (by simpa using hp), ih]
    · rw [List.filter_cons_of_neg (by simpa using hq)]
      have hp : ¬ p a = true := fun hpa => hq (h a hpa)
      rw [List.find?_cons_of_neg _ (by simpa using hp), ih]

/-- A finished poll saw a terminal status at its tick and at no earlier
tick of its window. -/
theorem pollAux_finished (status : Nat → String) :
    ∀ fuel t k s, pollAux status fuel t = .finished k s →
      t ≤ k ∧ k < t + fuel ∧ s = status (pollIntervalMs * k) ∧
      isTerminalStatus s = true ∧
      ∀ j, t ≤ j → j < k → isTerminalStatus (status (pollIntervalMs * j)) = false := by
  intro fuel
  induction fuel with
  | zero =>
    intro t k s h
    simp [pollAux] at h
  | succ n ih =>
    intro t k s h
    rw [pollAux] at h
    split at h
    · next hterm =>
      simp only [PollOutcome.finished.injEq] at h
      obtain ⟨hk, hs⟩ := h
      subst hk
      subst hs
      exact ⟨le_refl t, by omega, rfl, hterm, fun j hj1 hj2 => absurd hj2 (by omega)⟩
    · next hterm =>
      obtain ⟨h1, h2, h3, h4, h5⟩ := ih (t + 1) k s h
      refine ⟨by omega, by omega, h3, h4, ?_⟩
      intro j hj1 hj2
      rcases Nat.eq_or_lt_of_le hj1 with hje | hjlt
      · subst hje
        simpa using hterm
      · exact h5 j (by omega) hj2

/-- When no tick of the window sees a terminal status, the poll times
out. -/
theorem pollAux_timedOut (status : Nat → String) :
    ∀ fuel t, (∀ j, t ≤ j → j < t + fuel →
        isTerminalStatus (status (pollIntervalMs * j)) = false) →
      pollAux status fuel t = .timedOut := by
  intro fuel
  induction fuel with
  | zero => intro t _; rfl
  | succ n ih =>
    intro t hall
    have h0 : isTerminalStatus (status (pollIntervalMs * t)) = false :=
      hall t (le_refl t) (by omega)
    rw [pollAux, if_neg (by simp [h0])]
    exact ih (t + 1) (fun j hj1 hj2 => hall j (by omega) (by omega))

/-! ## Concrete values used by witnesses and the counterexample -/

/-- A concrete active user. -/
def demoUser : User :=
  { id := 7, username := "alice", hashedPassword := "h", isActive := true, isAdmin := false }

/-- A concrete inactive user. -/
def inactiveUser : User :=
  { id := 8, username := "bob", hashedPassword := "h", isActive := false, isAdmin := false }

/-- Concrete panel settings with the test credentials. -/
def demoSettings : UserSettings :=
  { id := 1, userID := 7, websiteURL := "http-panel", apiKey := "test", authUser := "test" }

/-- A client in simulation mode. -/
def simClient : APIClient :=
  { baseURL := "http-panel", apiKey := "test", authUser := "test" }

/-- A client outside simulation mode. -/
def strayClient : APIClient :=
  { baseURL := "http-panel", apiKey := "k", authUser := "a" }

/-- One concrete real-call oracle. -/
def strayReal : RealOracle :=
  { createAccount := .error "boom", findAccount := .error "boom",
    extendPackage := .error "boom" }

/-- A second, different real-call oracle. -/
def otherReal : RealOracle :=
  { createAccount := .ok { lineID := "L1", expireAt := 9, transactionAmount := 100, rid := "r" },
    findAccount := .ok [], extendPackage := .error "down" }

/-- Concrete randomness for the simulation. -/
def demoRand : SimRand :=
  { uuids := fun _ => "00000000-0000-0000-0000-000000000000", ints := fun _ => 0 }

/-- A request with a supported operation name. -/
def demoCreateReq : TaskRequest :=
  { name := "create_account", targetWebsite := "http-panel", username := "u1",
    password := "p1", package := 103 }

/-- A request whose name matches none of the three switch cases. -/
def strayReq : TaskRequest :=
  { name := "delete_account", targetWebsite := "http-panel" }

/-- The pending row created for the supported request. -/
def demoPendingTask : AutomationTask := createTaskRecord demoUser demoCreateReq 3 0

/-- The pending row created for the unsupported request. -/
def strayTask : AutomationTask := createTaskRecord demoUser strayReq 9 0

/-! ## Claim theorems -/

/-- C7: sanitizeErrorMessage replaces a message containing any of the
five HTML markers by the fixed connection-error message, and returns
every other message unchanged. -/
theorem sanitize_error_message_classification (msg : String) :
    ((strContains msg "<!DOCTYPE" || strContains msg "<html" ||
      strContains msg "<body" || strContains msg "<head" ||
      strContains msg "<title") = true →
      sanitizeErrorMessage msg = connectionErrorMessage) ∧
    ((strContains msg "<!DOCTYPE" || strContains msg "<html" ||
      strContains msg "<body" || strContains msg "<head" ||
      strContains msg "<title") = false →
      sanitizeErrorMessage msg = msg) := by
  unfold sanitizeErrorMessage containsHTML
  constructor <;> intro h <;> simp [h]

/-- C7 witness: one HTML-looking message is rewritten, one plain
message passes through. -/
theorem sanitize_error_message_classification_spot :
    sanitizeErrorMessage "404 <html><body>not found" = connectionErrorMessage ∧
    sanitizeErrorMessage "connection refused" = "connection refused" :=
  ⟨(sanitize_error_message_classification "404 <html><body>not found").1 (by decide),
   (sanitize_error_message_classification "connection refused").2 (by decide)⟩

/-- C3: a successful CreateTask request answers 201 with a task whose
status is pending and whose result blob and completion time are unset. -/
theorem create_task_success_pending (inp : CreateTaskInput) (u : User)
    (req : TaskRequest) (s : UserSettings)
    (hu : inp.ctxUser = some u) (hb : inp.bind = .ok req)
    (hs : inp.settings = .ok s) (hc : inp.createOK = true) :
    CreateTask inp = (201, .taskBody (createTaskRecord u req inp.newTaskID inp.now)) ∧
    (createTaskRecord u req inp.newTaskID inp.now).status = "pending" ∧
    (createTaskRecord u req inp.newTaskID inp.now).result = none ∧
    (createTaskRecord u req inp.newTaskID inp.now).completedAt = none := by
  refine ⟨?_, rfl, rfl, rfl⟩
  unfold CreateTask
  rw [hu, hb, hs]
  simp [hc]

/-- C3 witness: a fully concrete successful CreateTask request. -/
theorem create_task_success_pending_spot :
    CreateTask { ctxUser := some demoUser, bind := .ok demoCreateReq,
                 settings := .ok demoSettings, createOK := true, newTaskID := 3, now := 0 } =
      (201, .taskBody demoPendingTask) ∧
    demoPendingTask.status = "pending" ∧
    demoPendingTask.result = none ∧
    demoPendingTask.completedAt = none :=
  create_task_success_pending _ demoUser demoCreateReq demoSettings rfl rfl rfl rfl

/-- C4: a login with an unknown username, or with a password failing
the bcrypt check, answers 401 with the generic message and its body
carries no access token. -/
theorem login_wrong_credentials (inp : LoginInput) (req : LoginRequest)
    (hb : inp.bind = .ok req)
    (hbad : inp.db.find? (fun u => u.username == req.username) = none ∨
      ∃ u, inp.db.find? (fun u => u.username == req.username) = some u ∧
        inp.checkHash req.password u.hashedPassword = false) :
    Login inp = (401, .errMsg "Invalid username or password") ∧
    ∀ tok ty un, (Login inp).2 ≠ .token tok ty un := by
  have hmain : Login inp = (401, .errMsg "Invalid username or password") := by
    unfold Login
    rw [hb]
    rcases hbad with hnone | ⟨u, hfind, hch⟩
    · simp only [authenticateUser, hnone]
    · simp only [authenticateUser, hfind, hch, Bool.not_false, if_true]
  refine ⟨hmain, ?_⟩
  intro tok ty un
  rw [hmain]
  simp

/-- A concrete login request with the right username and a wrong
password. -/
def wrongLoginInput : LoginInput :=
  { bind := .ok { username := "alice", password := "wrong" },
    db := [demoUser], checkHash := fun p hsh => p == hsh,
    tokenResult := .ok "tok" }

/-- C4 witness: a concrete login with the right username and a wrong
password. -/
theorem login_wrong_credentials_spot :
    Login wrongLoginInput = (401, .errMsg "Invalid username or password") :=
  (login_wrong_credentials wrongLoginInput { username := "alice", password := "wrong" }
    rfl (Or.inr ⟨demoUser, rfl, rfl⟩)).1

/-- C9: for an existing user whose active flag is false the login
answer is the generic 401 message, and no input at all can reach the
dedicated account-inactive response of Login. -/
theorem login_inactive_branch_unreachable (inp : LoginInput) (req : LoginRequest)
    (u : User) (hb : inp.bind = .ok req)
    (hfind : inp.db.find? (fun v => v.username == req.username) = some u)
    (hin : u.isActive = false) :
    Login inp = (401, .errMsg "Invalid username or password") ∧
    ∀ inp2 : LoginInput,
      Login inp2 ≠ (401, .errMsg "Account is inactive. Please contact administrator.") := by
  constructor
  · unfold Login
    rw [hb]
    rcases Bool.eq_false_or_eq_true (inp.checkHash req.password u.hashedPassword) with
      hch | hch <;> simp [authenticateUser, hfind, hch, hin]
  · intro inp2
    unfold Login
    split
    · simp
    · split
      · simp
      · next user ha =>
        have hact := authenticateUser_ok_active inp2.db inp2.checkHash _ _ user ha
        rw [hact]
        simp only [Bool.not_true, Bool.false_eq_true, if_false]
        split <;> simp

/-- A concrete login request by the inactive user with the correct
password. -/
def inactiveLoginInput : LoginInput :=
  { bind := .ok { username := "bob", password := "h" },
    db := [inactiveUser], checkHash := fun p hsh => p == hsh,
    tokenResult := .ok "tok" }

/-- C9 witness: a concrete inactive user with the correct password is
answered by the generic 401 message. -/
theorem login_inactive_branch_unreachable_spot :
    Login inactiveLoginInput = (401, .errMsg "Invalid username or password") :=
  (login_inactive_branch_unreachable inactiveLoginInput
    { username := "bob", password := "h" } inactiveUser rfl rfl rfl).1

/-- C1 counterexample: CreateTask accepts any non-empty name, and a
task created with the name delete_account is left in status pending by
a complete, panic-free run of executeTask, because the switch has no
case for it; pending is not a terminal status. -/
theorem execute_task_not_terminal_for_unknown_name :
    executeTask true (some strayTask) strayClient strayReq strayReal demoRand
      "rid0" 5 false = some strayTask ∧
    strayTask.status = "pending" ∧
    strayTask.status ≠ "completed" ∧ strayTask.status ≠ "failed" := by
  refine ⟨?_, rfl, by decide, by decide⟩
  rfl

/-- C1 amended: for a task whose name is one of the three supported
operations, a run of executeTask on a found row with the database
available always leaves the row in a terminal status, completed or
failed, whatever the external call outcomes, and even when the body
panics. -/
theorem execute_task_terminal_for_supported_names
    (fetch : Option AutomationTask) (t : AutomationTask) (client : APIClient)
    (req : TaskRequest) (real : RealOracle) (r : SimRand) (rid : String)
    (now : Int) (panics : Bool) (hf : fetch = some t)
    (hn : t.name = "create_account" ∨ t.name = "find_account" ∨
      t.name = "extend_package") :
    ∃ t2, executeTask true fetch client req real r rid now panics = some t2 ∧
      (t2.status = "completed" ∨ t2.status = "failed") := by
  subst hf
  cases panics with
  | true =>
    refine ⟨recoverUpdate t now, ?_, Or.inr rfl⟩
    simp [executeTask]
  | false =>
    refine ⟨execBody client t req real r rid now, ?_, ?_⟩
    · simp [executeTask]
    · exact execBody_terminal_of_known client t req real r rid now hn

/-- C1 witness: a concrete supported task lands in a terminal status. -/
theorem execute_task_terminal_for_supported_names_spot :
    ∃ t2, executeTask true (some demoPendingTask) simClient demoCreateReq
        strayReal demoRand "rid0" 5 false = some t2 ∧
      (t2.status = "completed" ∨ t2.status = "failed") :=
  execute_task_terminal_for_supported_names (some demoPendingTask) demoPendingTask
    simClient demoCreateReq strayReal demoRand "rid0" 5 false rfl (Or.inl rfl)

/-- C2: a created task starts in pending; the execution switch either
leaves the status unchanged or writes completed or failed, never writes
running when the prior status was not running, and never moves a
terminal status back to a non-terminal one; the panic recover, the only
other status write, also writes failed. -/
theorem task_status_monotonic (u : User) (reqC : TaskRequest) (id : Nat) (nowC : Int)
    (client : APIClient) (task : AutomationTask) (req : TaskRequest)
    (real : RealOracle) (r : SimRand) (rid : String) (now : Int) :
    (createTaskRecord u reqC id nowC).status = "pending" ∧
    ((execBody client task req real r rid now).status = task.status ∨
     (execBody client task req real r rid now).status = "completed" ∨
     (execBody client task req real r rid now).status = "failed") ∧
    (task.status ≠ "running" →
      (execBody client task req real r rid now).status ≠ "running") ∧
    ((task.status = "completed" ∨ task.status = "failed") →
      ((execBody client task req real r rid now).status = "completed" ∨
       (execBody client task req real r rid now).status = "failed")) ∧
    (recoverUpdate task now).status = "failed" := by
  refine ⟨rfl, execBody_status client task req real r rid now, ?_, ?_, rfl⟩
  · intro h hr
    rcases execBody_status client task req real r rid now with h1 | h1 | h1
    · exact h (h1 ▸ hr)
    · rw [h1] at hr
      exact absurd hr (by decide)
    · rw [h1] at hr
      exact absurd hr (by decide)
  · intro ht
    rcases execBody_status client task req real r rid now with h1 | h1 | h1
    · rw [h1]
      exact ht
    · exact Or.inl h1
    · exact Or.inr h1

/-- C2 witness: the concrete pending task never acquires the running
status through execution. -/
theorem task_status_monotonic_spot :
    (createTaskRecord demoUser demoCreateReq 3 0).status = "pending" ∧
    (execBody simClient demoPendingTask demoCreateReq strayReal demoRand
      "rid0" 5).status ≠ "running" := by
  obtain ⟨h1, _h2, h3, _h4, _h5⟩ := task_status_monotonic demoUser demoCreateReq 3 0
    simClient demoPendingTask demoCreateReq strayReal demoRand "rid0" 5
  exact ⟨h1, h3 (by decide)⟩

/-- C5: a panic inside executeTask is caught by the deferred recover:
with the database available and the row found, the row is rewritten to
status failed, with the completion instant set and a failure envelope
reporting the panic as its result. -/
theorem panic_marks_task_failed (fetch : Option AutomationTask) (t : AutomationTask)
    (client : APIClient) (req : TaskRequest) (real : RealOracle) (r : SimRand)
    (rid : String) (now : Int) (hf : fetch = some t) :
    executeTask true fetch client req real r rid now true =
      some { t with status := "failed",
                    result := some (.failure "Internal server error: task execution panicked"),
                    completedAt := some now } := by
  subst hf
  simp [executeTask, recoverUpdate]

/-- C5 witness: the concrete pending task after a caught panic. -/
theorem panic_marks_task_failed_spot :
    executeTask true (some demoPendingTask) simClient demoCreateReq strayReal
      demoRand "rid0" 5 true =
      some { demoPendingTask with
             status := "failed",
             result := some (.failure "Internal server error: task execution panicked"),
             completedAt := some 5 } :=
  panic_marks_task_failed (some demoPendingTask) demoPendingTask simClient
    demoCreateReq strayReal demoRand "rid0" 5 rfl

/-- C6: with the test credentials the execution switch is independent
of the real HTTP client: any two real-call oracles produce the same
row, and the simulated create call is a pure function returning the
documented mock shape, echoing the rid under a sim-prefixed line id. -/
theorem simulation_mode_no_real_calls (client : APIClient) (task : AutomationTask)
    (req : TaskRequest) (r : SimRand) (rid : String) (now : Int)
    (real1 real2 : RealOracle) (hsim : client.IsSimulationMode = true) :
    execBody client task req real1 r rid now = execBody client task req real2 r rid now ∧
    ∀ careq : CreateAccountRequest,
      client.SimulateCreateAccount careq r now =
        .ok { lineID := "sim-" ++ r.uuids 0,
              expireAt := addDate now (Int.tdiv careq.package 100) 0,
              transactionAmount := packageAmount careq.package,
              rid := careq.rid } := by
  constructor
  · unfold execBody runCreateAccount runFindAccount runExtendPackage
    simp [hsim]
  · intro careq
    rfl

/-- C6 witness: two different real oracles give the same execution
result for the concrete simulated client. -/
theorem simulation_mode_no_real_calls_spot :
    execBody simClient demoPendingTask demoCreateReq strayReal demoRand "rid0" 5 =
      execBody simClient demoPendingTask demoCreateReq otherReal demoRand "rid0" 5 :=
  (simulation_mode_no_real_calls simClient demoPendingTask demoCreateReq demoRand
    "rid0" 5 strayReal otherReal rfl).1

/-- C8: completion is discovered only by refetching the row at the
2000 millisecond ticks: a finished poll observed completed or failed at
its tick, inside the 300000 millisecond window, with no terminal
status at any earlier tick; and when no tick of the window sees a
terminal status the poll ends in the timeout error. -/
theorem poll_task_completion_spec (status : Nat → String) :
    pollIntervalMs = 2000 ∧ pollTimeoutMs = 300000 ∧
    (∀ k s, pollTaskCompletion status = .finished k s →
      (s = "completed" ∨ s = "failed") ∧ s = status (pollIntervalMs * k) ∧
      1 ≤ k ∧ pollIntervalMs * k ≤ pollTimeoutMs ∧
      ∀ j, 1 ≤ j → j < k → isTerminalStatus (status (pollIntervalMs * j)) = false) ∧
    ((∀ k, 1 ≤ k → pollIntervalMs * k ≤ pollTimeoutMs →
        isTerminalStatus (status (pollIntervalMs * k)) = false) →
      pollTaskCompletion status = .timedOut) := by
  refine ⟨rfl, rfl, ?_, ?_⟩
  · intro k s h
    obtain ⟨h1, h2, h3, h4, h5⟩ := pollAux_finished status pollTicks 1 k s h
    have hterm : s = "completed" ∨ s = "failed" := by
      have h4b := h4
      simp only [isTerminalStatus, Bool.or_eq_true, beq_iff_eq] at h4b
      exact h4b
    have hticks : pollTicks = 150 := rfl
    refine ⟨hterm, h3, h1, ?_, h5⟩
    rw [hticks] at h2
    show 2000 * k ≤ 300000
    omega
  · intro hall
    apply pollAux_timedOut status pollTicks 1
    intro j hj1 hj2
    have hticks : pollTicks = 150 := rfl
    rw [hticks] at hj2
    exact hall j hj1 (by show 2000 * j ≤ 300000; omega)

/-- A concrete status trace that turns completed at 4000 milliseconds. -/
def demoStatusTrace (t : Nat) : String :=
  if 4000 ≤ t then "completed" else "pending"

/-- C8 witness: on the concrete trace the poll finishes at tick 2 with
status completed, observed at 4000 milliseconds inside the window. -/
theorem poll_task_completion_spec_spot :
    ("completed" = "completed" ∨ "completed" = "failed") ∧
    "completed" = demoStatusTrace (pollIntervalMs * 2) ∧
    1 ≤ 2 ∧ pollIntervalMs * 2 ≤ pollTimeoutMs ∧
    ∀ j, 1 ≤ j → j < 2 → isTerminalStatus (demoStatusTrace (pollIntervalMs * j)) = false :=
  (poll_task_completion_spec demoStatusTrace).2.2.1 2 "completed" rfl

/-- C10: task reads are isolated per user: the list endpoint returns
only rows owned by the context user, a task id held by a different
user is answered with 404 by GetTask, and both read endpoints give
identical responses on any two task tables that agree on the rows of
the context user. -/
theorem task_reads_isolated (u : User) (db : List AutomationTask) (id : Nat)
    (db1 db2 : List AutomationTask)
    (hother : ∀ t, t ∈ db → t.id = id → t.userID ≠ u.id)
    (hagree : db1.filter (fun t => t.userID == u.id) =
      db2.filter (fun t => t.userID == u.id)) :
    (GetUserTasks (some u) db true =
      (200, .tasks (db.filter (fun t => t.userID == u.id))) ∧
     ∀ t, t ∈ db.filter (fun t => t.userID == u.id) → t.userID = u.id) ∧
    GetTask (some id) (some u) db = (404, .errMsg "Task not found") ∧
    (∀ qok, GetUserTasks (some u) db1 qok = GetUserTasks (some u) db2 qok) ∧
    (∀ idp, GetTask idp (some u) db1 = GetTask idp (some u) db2) := by
  refine ⟨⟨rfl, ?_⟩, ?_, ?_, ?_⟩
  · intro t ht
    have := List.of_mem_filter ht
    simpa using this
  · unfold GetTask
    dsimp only
    have hnone : db.find? (fun t => t.id == id && t.userID == u.id) = none := by
      rw [List.find?_eq_none]
      intro t ht
      simp only [Bool.and_eq_true, beq_iff_eq, not_and]
      intro hid
      exact hother t ht hid
    rw [hnone]
  · intro qok
    unfold GetUserTasks
    dsimp only
    rw [hagree]
  · intro idp
    unfold GetTask
    cases idp with
    | none => rfl
    | some i =>
      dsimp only
      have himp : ∀ t : AutomationTask,
          (t.id == i && t.userID == u.id) = true → (t.userID == u.id) = true := by
        intro t ht
        exact (Bool.and_elim_right ht)
      have h1 := find?_filter_eq (fun t => t.id == i && t.userID == u.id)
        (fun t => t.userID == u.id) himp db1
      have h2 := find?_filter_eq (fun t => t.id == i && t.userID == u.id)
        (fun t => t.userID == u.id) himp db2
      rw [← h1, ← h2, hagree]

/-- A concrete task row owned by the demo user. -/
def taskMine : AutomationTask :=
  { id := 1, userID := 7, name := "find_account", targetWebsite := "http-panel",
    status := "pending", result := none, createdAt := 0, updatedAt := 0,
    completedAt := none }

/-- A concrete task row owned by another user. -/
def taskTheirs : AutomationTask :=
  { id := 2, userID := 8, name := "find_account", targetWebsite := "http-panel",
    status := "completed", result := none, createdAt := 0, updatedAt := 0,
    completedAt := some 4 }

/-- C10 witness: the demo user asking for the task id of the other
user receives a 404. -/
theorem task_reads_isolated_spot :
    GetTask (some 2) (some demoUser) [taskMine, taskTheirs] =
      (404, .errMsg "Task not found") :=
  (task_reads_isolated demoUser [taskMine, taskTheirs] 2 [] []
    (by decide) rfl).2.1

end AccountEditor
